import Mathlib

/-!
Verification development for the libmodbuspp clock-server-json example
(`src/examples/server/clock-server-json/main.cpp`) and the Modbus server
engine it embeds, as described by the repository specification.

The Modbus engine library itself (classes `Server`, `BufferedSlave`,
`Data<int32_t>`) is not among the supplied sources; only the example
application is.  Definitions for the engine are therefore modelled from the
specification (each such definition says so in its doc comment), while the
application logic (register layout, refresh loop, argument and error
handling) is translated directly from `main.cpp`.
-/

namespace Modbuspp

/-- Errors of the register data model (spec section 4.1). -/
inductive TableError where
  | outOfRange
  | invalidCount
  deriving DecidableEq, Repr

/-- Modelled from the spec: the Data Model / Register Map `read` contract of
section 4.1 — the engine library holding `BufferedSlave` is not under `src/`.
A table is an ordered, 1-indexed, fixed-capacity array of cells; `read`
returns `count` cells starting at `address`.  It fails with `invalidCount`
when the count is zero or exceeds the protocol per-request maximum
`maxCount`, and with `outOfRange` when `address + count - 1` exceeds the
table capacity (addresses are 1-based, so address 0 is out of range). -/
def tableRead (cells : List α) (address count maxCount : Nat) :
    Except TableError (List α) :=
  if count = 0 ∨ maxCount < count then .error .invalidCount
  else if address = 0 ∨ cells.length < address + count - 1 then .error .outOfRange
  else .ok ((cells.drop (address - 1)).take count)

/-- Modelled from the spec: the Data Model / Register Map `write` contract of
section 4.1, with the same validation as `tableRead`; the write is atomic per
call — either all addressed cells update or none do. -/
def tableWrite (cells : List α) (address : Nat) (values : List α)
    (maxCount : Nat) : Except TableError (List α) :=
  if values.length = 0 ∨ maxCount < values.length then .error .invalidCount
  else if address = 0 ∨ cells.length < address + values.length - 1 then
    .error .outOfRange
  else .ok (cells.take (address - 1) ++ values ++
    cells.drop (address - 1 + values.length))

/-- Protocol per-request maximum quantity for bit (coil / discrete) tables
(spec section 4.1). -/
def maxBits : Nat := 2000

/-- Protocol per-request maximum quantity for 16-bit register tables
(spec section 4.1). -/
def maxRegs : Nat := 125

/-- Modelled from the spec: a slave of the Slave Registry (spec section 3) —
the engine library holding `BufferedSlave` is not under `src/`.  A slave owns
exactly one instance of each register table: 1-bit coils and discrete inputs,
16-bit unsigned input and holding registers. -/
structure BufferedSlave where
  coils : List Bool
  discreteInputs : List Bool
  inputRegisters : List Nat
  holdingRegisters : List Nat
  deriving DecidableEq, Repr

/-- Modelled from the spec: the application-facing `writeCoil` helper
(spec section 6), a thin accessor over the coil table. -/
def writeCoil (s : BufferedSlave) (address : Nat) (value : Bool) :
    Except TableError BufferedSlave :=
  (tableWrite s.coils address [value] maxBits).map fun cs =>
    { s with coils := cs }

/-- Modelled from the spec: the application-facing `readCoil` helper
(spec section 6). -/
def readCoil (s : BufferedSlave) (address : Nat) : Except TableError Bool :=
  (tableRead s.coils address 1 maxBits).map fun l => l.getD 0 false

/-- Modelled from the spec: the application-facing `writeRegister` helper for
a single 16-bit holding register (spec section 6); the value parameter is a
`uint16_t`, so it is reduced modulo 2^16. -/
def writeRegister (s : BufferedSlave) (address value : Nat) :
    Except TableError BufferedSlave :=
  (tableWrite s.holdingRegisters address [value % 65536] maxRegs).map fun rs =>
    { s with holdingRegisters := rs }

/-- Modelled from the spec: the application-facing `readRegister` helper for
a single 16-bit holding register (spec section 6). -/
def readRegister (s : BufferedSlave) (address : Nat) :
    Except TableError Nat :=
  (tableRead s.holdingRegisters address 1 maxRegs).map fun l => l.getD 0 0

/-- Modelled from the spec: encoding of a 32-bit composite value (the
`Data<int32_t>` GMT offset of `main.cpp` line 96) as two consecutive
big-endian 16-bit registers with the high word first — the default "ABCD"
word order of spec section 4.2.  A register holds the big-endian bytes of
one 16-bit word, so at word level the value is its two's-complement 32-bit
image split into high and low words. -/
def encodeInt32 (v : Int) : List Nat :=
  let u := (v % 4294967296).toNat
  [u / 65536, u % 65536]

/-- Modelled from the spec: decoding of two consecutive "ABCD"-ordered
registers back into a signed 32-bit value (spec section 4.2). -/
def decodeInt32 (hi lo : Nat) : Int :=
  let u := hi * 65536 + lo
  if u < 2147483648 then (u : Int) else (u : Int) - 4294967296

/-- Modelled from the spec: `writeRegister` applied to a `Data<int32_t>`
value, as on `main.cpp` line 139 — it stores the two "ABCD"-ordered words
into holding registers `address` and `address + 1`. -/
def writeRegisterInt32 (s : BufferedSlave) (address : Nat) (v : Int) :
    Except TableError BufferedSlave :=
  (tableWrite s.holdingRegisters address (encodeInt32 v) maxRegs).map
    fun rs => { s with holdingRegisters := rs }

/-- Modelled from the spec: `readRegister` applied to a `Data<int32_t>`
value, as on `main.cpp` line 157 — it reads holding registers `address` and
`address + 1` and decodes them in "ABCD" word order. -/
def readRegisterInt32 (s : BufferedSlave) (address : Nat) :
    Except TableError Int :=
  (tableRead s.holdingRegisters address 2 maxRegs).map fun l =>
    decodeInt32 (l.getD 0 0) (l.getD 1 0)

/-- Modelled from the spec: the application-facing `writeInputRegisters`
helper (spec section 6), as used on `main.cpp` line 173. -/
def writeInputRegisters (s : BufferedSlave) (address : Nat)
    (values : List Nat) : Except TableError BufferedSlave :=
  (tableWrite s.inputRegisters address values maxRegs).map fun rs =>
    { s with inputRegisters := rs }

/-- Modelled from the spec: the read of the input-register table served to a
client request (function code 0x04), spec sections 4.1 and 4.5. -/
def readInputRegisters (s : BufferedSlave) (address count : Nat) :
    Except TableError (List Nat) :=
  tableRead s.inputRegisters address count maxRegs

/-- Broken-down time as produced by the C library function `gmtime`, with
the fields `main.cpp` uses: `tm_mon` counts months since January (0-11),
`tm_year` years since 1900, `tm_wday` days since Sunday (0-6), `tm_yday`
days since 1 January (0-365). -/
structure Tm where
  tm_sec : Nat
  tm_min : Nat
  tm_hour : Nat
  tm_mday : Nat
  tm_mon : Nat
  tm_year : Nat
  tm_wday : Nat
  tm_yday : Nat
  deriving DecidableEq, Repr

/-- The eight values `mb_time[0..7]` computed by `main.cpp` lines 163-170
from a broken-down time; each field is stored into a `uint16_t`, hence is
reduced modulo 2^16. -/
def mbTimeOf (t : Tm) : List Nat :=
  [t.tm_sec % 65536, t.tm_min % 65536, t.tm_hour % 65536, t.tm_mday % 65536,
   (t.tm_mon + 1) % 65536, (t.tm_year + 1900) % 65536, t.tm_wday % 65536,
   (t.tm_yday + 1) % 65536]

/-- One execution of the per-second refresh body of `main.cpp` lines
154-173: read the daylight flag back from coil 1 and the GMT offset back
from holding register 1, adjust the epoch time by
`(daylight ? 3600 : 0) + gmtoff`, and write the eight broken-down-time
values to input registers 1..8.  The C library `gmtime` is external to the
repository, so it enters as the function argument `gmt`. -/
def refresh (gmt : Int → Tm) (s : BufferedSlave) (now : Int) :
    Except TableError BufferedSlave := do
  let daylight ← readCoil s 1
  let gmtoff ← readRegisterInt32 s 1
  let adjusted := now + ((if daylight then 3600 else 0) + gmtoff)
  writeInputRegisters s 1 (mbTimeOf (gmt adjusted))

/-- Modelled from the spec: the Server Engine process-wide state of spec
section 3 together with the cancellation flag of section 5 — the engine
library holding `Server` is not under `src/`.  `opened` records that
`open()` succeeded, `resourceHeld` that the listening/serial resource is
held, and `closeRequested` is the process-wide cancellation flag set by
`close`. -/
structure Engine where
  opened : Bool
  resourceHeld : Bool
  closeRequested : Bool
  deriving DecidableEq, Repr

/-- Modelled from the spec: `close` (spec sections 5 and 6) — callable from
a signal handler context because it only sets the process-wide cancellation
flag; actual resource release is deferred to the poll loop thread. -/
def close (e : Engine) : Engine := { e with closeRequested := true }

/-- Modelled from the spec: `isOpen` reports liveness (spec section 6); an
engine on which `close` has been called is no longer live. -/
def isOpen (e : Engine) : Bool := e.opened && !e.closeRequested

/-- Modelled from the spec: the lifecycle effect of one `poll(timeoutMs)`
iteration (spec sections 4.5 and 5): the cancellation flag is checked at the
top of each loop iteration; when it is set, the listening/serial resource is
released and the engine stops being open, terminating the poll loop; when it
is not set, pending connections are serviced within the timeout budget,
which leaves the lifecycle state modelled here unchanged. -/
def pollStep (e : Engine) : Engine :=
  if e.closeRequested then { e with resourceHeld := false, opened := false }
  else e

/-- The do/while poll loop of `main.cpp` lines 145-178, abstracted to its
lifecycle effect: each iteration ends with `srv.poll` (line 176) and the
loop repeats while `srv.isOpen()` holds (line 178); `fuel` bounds the number
of iterations so that the model is total. -/
def serverLoop (fuel : Nat) (e : Engine) : Engine :=
  match fuel with
  | 0 => e
  | fuel + 1 =>
    let e' := pollStep e
    if isOpen e' then serverLoop fuel e' else e'

/-- Kinds of C++ exception distinguished by the catch blocks of `main.cpp`
lines 181-192, carrying the `what()` message where one exists. -/
inductive ExcKind where
  | logicError (what : String)
  | runtimeError (what : String)
  | other
  deriving DecidableEq, Repr

/-- The stderr diagnostic each catch block of `main.cpp` lines 181-192
writes for an exception. -/
def diagMessage : ExcKind → String
  | .logicError what => "Logic error: " ++ what
  | .runtimeError what => "Runtime error: " ++ what
  | .other => "Unattended exception !"

/-- Observable outcome of one run of `main` (`main.cpp` lines 81-195):
the process exit code, whether the usage error of lines 85-86 was written,
which library entry points were reached (`setConfig` line 107, `slave`
line 109, `open` line 141), whether a listening endpoint was created, and
the diagnostic written by a catch block, if any. -/
structure MainResult where
  exitCode : Nat
  usageErrorReported : Bool
  configRead : Bool
  slaveRegistered : Bool
  openCalled : Bool
  endpointCreated : Bool
  stderrDiag : Option String
  deriving DecidableEq, Repr

/-- Control flow of `main` (`main.cpp` lines 81-195), with the behavior of
the external library calls supplied as oracles: `setConfigExc` is the
exception thrown by `srv.setConfig` (line 107) if any, `setupExc` the
exception thrown between `srv.slave` and `srv.open` (lines 109-139) if any,
`openOk` the return value of `srv.open()` (line 141), and `loopExc` the
exception escaping the serving loop (lines 145-178) if any.  `EXIT_FAILURE`
is 1, and falling off the end of `main` returns 0. -/
def mainModel (argc : Nat) (setConfigExc setupExc loopExc : Option ExcKind)
    (openOk : Bool) : MainResult :=
  if argc < 2 then
    { exitCode := 1, usageErrorReported := true, configRead := false,
      slaveRegistered := false, openCalled := false, endpointCreated := false,
      stderrDiag := none }
  else
    match setConfigExc with
    | some k =>
      { exitCode := 0, usageErrorReported := false, configRead := true,
        slaveRegistered := false, openCalled := false,
        endpointCreated := false, stderrDiag := some (diagMessage k) }
    | none =>
      match setupExc with
      | some k =>
        { exitCode := 0, usageErrorReported := false, configRead := true,
          slaveRegistered := true, openCalled := false,
          endpointCreated := false, stderrDiag := some (diagMessage k) }
      | none =>
        if openOk then
          match loopExc with
          | some k =>
            { exitCode := 0, usageErrorReported := false, configRead := true,
              slaveRegistered := true, openCalled := true,
              endpointCreated := true, stderrDiag := some (diagMessage k) }
          | none =>
            { exitCode := 0, usageErrorReported := false, configRead := true,
              slaveRegistered := true, openCalled := true,
              endpointCreated := true, stderrDiag := none }
        else
          { exitCode := 0, usageErrorReported := false, configRead := true,
            slaveRegistered := true, openCalled := true,
            endpointCreated := false, stderrDiag := none }

/-- The exception that actually escapes the try block of `main.cpp` for a
given combination of oracles, following the control flow: a `setConfig`
throw preempts setup, a setup throw preempts the loop, and the loop only
runs when `open()` returned true. -/
def thrownExc (setConfigExc setupExc loopExc : Option ExcKind)
    (openOk : Bool) : Option ExcKind :=
  match setConfigExc with
  | some k => some k
  | none =>
    match setupExc with
    | some k => some k
    | none => if openOk then loopExc else none

/-- The value of the variable `before` of `main.cpp` after loop iteration
`i`, given the sequence of `time(nullptr)` samples: `trace 0` is the startup
sample of line 131 and `trace i`, for `i ≥ 1`, the sample taken by iteration
`i` at line 147; the guard of line 149 updates `before` (line 151) only when
the new sample is strictly greater. -/
def beforeAfter (trace : Nat → Int) : Nat → Int
  | 0 => trace 0
  | i + 1 =>
    if beforeAfter trace i < trace (i + 1) then trace (i + 1)
    else beforeAfter trace i

/-- Whether the refresh body of `main.cpp` lines 151-173 runs at loop
iteration `i + 1`: the guard `now > before` of line 149. -/
def refreshFires (trace : Nat → Int) (i : Nat) : Prop :=
  beforeAfter trace i < trace (i + 1)

theorem tableWrite_ok (cells : List α) (address : Nat) (values : List α)
    (maxCount : Nat) (h1 : 1 ≤ address)
    (h2 : address + values.length - 1 ≤ cells.length)
    (h3 : 1 ≤ values.length) (h4 : values.length ≤ maxCount) :
    tableWrite cells address values maxCount =
      .ok (cells.take (address - 1) ++ values ++
        cells.drop (address - 1 + values.length)) := by
  unfold tableWrite
  rw [if_neg (by omega), if_neg (by omega)]

theorem write_cells_length (cells : List α) (address : Nat) (values : List α)
    (h1 : 1 ≤ address) (h2 : address + values.length - 1 ≤ cells.length) :
    (cells.take (address - 1) ++ values ++
      cells.drop (address - 1 + values.length)).length = cells.length := by
  simp only [List.length_append, List.length_take, List.length_drop]
  omega

theorem read_after_write (cells : List α) (address : Nat) (values : List α)
    (h1 : 1 ≤ address) (h2 : address + values.length - 1 ≤ cells.length) :
    (((cells.take (address - 1) ++ values ++
        cells.drop (address - 1 + values.length)).drop (address - 1)).take
      values.length) = values := by
  rw [List.append_assoc, List.drop_left' (by
    simp only [List.length_take]; omega), List.take_left' rfl]

/-- Round-trip of the data model: a valid `write` succeeds, keeps the table
capacity, and a `read` of the same range returns exactly the written values. -/
theorem tableWrite_tableRead (cells : List α) (address : Nat)
    (values : List α) (maxCount : Nat) (h1 : 1 ≤ address)
    (h2 : address + values.length - 1 ≤ cells.length)
    (h3 : 1 ≤ values.length) (h4 : values.length ≤ maxCount) :
    ∃ cells', tableWrite cells address values maxCount = .ok cells' ∧
      cells'.length = cells.length ∧
      tableRead cells' address values.length maxCount = .ok values := by
  refine ⟨_, tableWrite_ok cells address values maxCount h1 h2 h3 h4, ?_, ?_⟩
  · exact write_cells_length cells address values h1 h2
  · unfold tableRead
    rw [if_neg (by omega), if_neg (by
      rw [write_cells_length cells address values h1 h2]; omega)]
    rw [read_after_write cells address values h1 h2]

/-- Round-trip of the input-register table of a slave with eight input
registers, as configured by the clock-server scenario: writing eight values
at address 1 succeeds, a read of eight registers from address 1 returns
them, and the other tables are untouched. -/
theorem writeInputRegisters_roundtrip (s : BufferedSlave) (values : List Nat)
    (h8 : s.inputRegisters.length = 8) (hlen : values.length = 8) :
    ∃ s', writeInputRegisters s 1 values = .ok s' ∧
      readInputRegisters s' 1 8 = .ok values ∧
      s'.coils = s.coils ∧ s'.holdingRegisters = s.holdingRegisters ∧
      s'.discreteInputs = s.discreteInputs := by
  have hm : maxRegs = 125 := rfl
  obtain ⟨cells', hw, hlen', hr⟩ := tableWrite_tableRead s.inputRegisters 1
    values maxRegs (by omega) (by omega) (by omega) (by omega)
  rw [hlen] at hr
  refine ⟨{ s with inputRegisters := cells' }, ?_, hr, rfl, rfl, rfl⟩
  unfold writeInputRegisters
  rw [hw]
  rfl

theorem beforeAfter_eq_trace (trace : Nat → Int)
    (mono : ∀ i, trace i ≤ trace (i + 1)) (i : Nat) :
    beforeAfter trace i = trace i := by
  induction i with
  | zero => rfl
  | succ i ih =>
    unfold beforeAfter
    rw [ih]
    rcases lt_or_ge (trace i) (trace (i + 1)) with h | h
    · rw [if_pos h]
    · rw [if_neg (not_lt.mpr h)]
      exact le_antisymm (mono i) h

theorem refreshFires_iff (trace : Nat → Int)
    (mono : ∀ i, trace i ≤ trace (i + 1)) (i : Nat) :
    refreshFires trace i ↔ trace i < trace (i + 1) := by
  unfold refreshFires
  rw [beforeAfter_eq_trace trace mono i]

theorem trace_hits_value (trace : Nat → Int)
    (step : ∀ i, trace (i + 1) ≤ trace i + 1) (v : Int) :
    ∀ N, trace 0 < v → v ≤ trace N →
      ∃ i, i < N ∧ trace i < trace (i + 1) ∧ trace (i + 1) = v := by
  intro N
  induction N with
  | zero => intro h0 hN; omega
  | succ N ih =>
    intro h0 hN
    rcases le_or_lt v (trace N) with h | h
    · obtain ⟨i, hi, hlt, heq⟩ := ih h0 h
      exact ⟨i, by omega, hlt, heq⟩
    · have hstep := step N
      exact ⟨N, by omega, by omega, by omega⟩

theorem decodeInt32_encodeInt32 (v : Int) (hlo : -2147483648 ≤ v)
    (hhi : v < 2147483648) :
    decodeInt32 ((encodeInt32 v).getD 0 0) ((encodeInt32 v).getD 1 0) = v := by
  simp only [encodeInt32, decodeInt32, List.getD_cons_zero,
    List.getD_cons_succ]
  split <;> omega

/-- C1: after the refresh body of `main.cpp` lines 162-173 updates the eight
input registers of the slave with the broken-down time `gmtime(t)` of a
known timestamp, a client reading 8 input registers starting at address 1
receives exactly {tm_sec, tm_min, tm_hour, tm_mday, tm_mon + 1,
tm_year + 1900, tm_wday, tm_yday + 1} in that order — seconds, minutes,
hours, day-of-month, month 1-12, full year, weekday with Sunday = 0, and
day-of-year 1-366.  The fit hypothesis states that every field fits a
16-bit register, which holds for every broken-down time until year 65535. -/
theorem clock_publishes_gmtime_fields (t : Tm) (s : BufferedSlave)
    (h8 : s.inputRegisters.length = 8)
    (hfit : t.tm_sec < 65536 ∧ t.tm_min < 65536 ∧ t.tm_hour < 65536 ∧
      t.tm_mday < 65536 ∧ t.tm_mon + 1 < 65536 ∧ t.tm_year + 1900 < 65536 ∧
      t.tm_wday < 65536 ∧ t.tm_yday + 1 < 65536) :
    ∃ s', writeInputRegisters s 1 (mbTimeOf t) = .ok s' ∧
      readInputRegisters s' 1 8 = .ok [t.tm_sec, t.tm_min, t.tm_hour,
        t.tm_mday, t.tm_mon + 1, t.tm_year + 1900, t.tm_wday,
        t.tm_yday + 1] := by
  obtain ⟨h1, h2, h3, h4, h5, h6, h7, h9⟩ := hfit
  have hmb : mbTimeOf t = [t.tm_sec, t.tm_min, t.tm_hour, t.tm_mday,
      t.tm_mon + 1, t.tm_year + 1900, t.tm_wday, t.tm_yday + 1] := by
    unfold mbTimeOf
    rw [Nat.mod_eq_of_lt h1, Nat.mod_eq_of_lt h2, Nat.mod_eq_of_lt h3,
      Nat.mod_eq_of_lt h4, Nat.mod_eq_of_lt h5, Nat.mod_eq_of_lt h6,
      Nat.mod_eq_of_lt h7, Nat.mod_eq_of_lt h9]
  obtain ⟨s', hw, hr, _, _, _⟩ :=
    writeInputRegisters_roundtrip s (mbTimeOf t) h8 rfl
  rw [hmb] at hr
  exact ⟨s', hw, hr⟩

/-- Witness for C1 at the timestamp of the example's header comment,
15:40:37 on Thursday 2019-11-28, the 332nd day of the year: the registers
read back exactly as in the documented mbpoll session. -/
theorem clock_publishes_gmtime_fields_witness :
    ((⟨[], [], [0, 0, 0, 0, 0, 0, 0, 0], []⟩ :
      BufferedSlave).inputRegisters.length = 8) ∧
    ∃ s', writeInputRegisters ⟨[], [], [0, 0, 0, 0, 0, 0, 0, 0], []⟩ 1
        (mbTimeOf ⟨37, 40, 15, 28, 10, 119, 4, 331⟩) = .ok s' ∧
      readInputRegisters s' 1 8 = .ok [37, 40, 15, 28, 11, 2019, 4, 332] :=
  ⟨rfl, clock_publishes_gmtime_fields ⟨37, 40, 15, 28, 10, 119, 4, 331⟩
    ⟨[], [], [0, 0, 0, 0, 0, 0, 0, 0], []⟩ rfl (by decide)⟩

/-- C2: the 32-bit GMT offset stored in holding registers 1-2 is encoded as
two consecutive big-endian 16-bit registers with the high word first (the
default "ABCD" order): writing any int32 value through the `Data<int32_t>`
accessor and decoding the two registers back yields the same value,
negative offsets included. -/
theorem gmtoff_int32_roundtrip (s : BufferedSlave) (v : Int)
    (hcap : 2 ≤ s.holdingRegisters.length)
    (hlo : -2147483648 ≤ v) (hhi : v < 2147483648) :
    ∃ s', writeRegisterInt32 s 1 v = .ok s' ∧
      readRegisterInt32 s' 1 = .ok v := by
  have hm : maxRegs = 125 := rfl
  have hlen : (encodeInt32 v).length = 2 := rfl
  obtain ⟨cells', hw, hlen', hr⟩ := tableWrite_tableRead s.holdingRegisters 1
    (encodeInt32 v) maxRegs (by omega) (by omega) (by omega) (by omega)
  refine ⟨{ s with holdingRegisters := cells' }, ?_, ?_⟩
  · unfold writeRegisterInt32
    rw [hw]
    rfl
  · rw [hlen] at hr
    unfold readRegisterInt32
    show (tableRead cells' 1 2 maxRegs).map _ = _
    rw [hr]
    show Except.ok (decodeInt32 ((encodeInt32 v).getD 0 0)
      ((encodeInt32 v).getD 1 0)) = _
    rw [decodeInt32_encodeInt32 v hlo hhi]

/-- Witness for C2 at the documented offset GMT-2 hours, -7200 seconds. -/
theorem gmtoff_int32_roundtrip_witness :
    (2 ≤ (⟨[], [], [], [0, 0]⟩ : BufferedSlave).holdingRegisters.length) ∧
    (-2147483648 ≤ (-7200 : Int)) ∧ ((-7200 : Int) < 2147483648) ∧
    ∃ s', writeRegisterInt32 ⟨[], [], [], [0, 0]⟩ 1 (-7200) = .ok s' ∧
      readRegisterInt32 s' 1 = .ok (-7200) :=
  ⟨by decide, by decide, by decide,
    gmtoff_int32_roundtrip ⟨[], [], [], [0, 0]⟩ (-7200) (by decide)
      (by decide) (by decide)⟩

/-- C3: for every table, address and count within the table capacity and the
protocol per-request limit, `write` then `read` over the same range returns
exactly the written values; in particular `writeCoil(1, b)` then
`readCoil(1, x)` yields `x = b`, and `writeRegister(1, v)` then
`readRegister(1, x)` yields `x = v`. -/
theorem write_read_roundtrip (cells : List α) (address : Nat)
    (values : List α) (maxCount : Nat) (s : BufferedSlave) (b : Bool)
    (v : Nat) (h1 : 1 ≤ address)
    (h2 : address + values.length - 1 ≤ cells.length)
    (h3 : 1 ≤ values.length) (h4 : values.length ≤ maxCount)
    (hc : 1 ≤ s.coils.length) (hh : 1 ≤ s.holdingRegisters.length)
    (hv : v < 65536) :
    (∃ cells', tableWrite cells address values maxCount = .ok cells' ∧
      tableRead cells' address values.length maxCount = .ok values) ∧
    (∃ s', writeCoil s 1 b = .ok s' ∧ readCoil s' 1 = .ok b) ∧
    (∃ s', writeRegister s 1 v = .ok s' ∧ readRegister s' 1 = .ok v) := by
  refine ⟨?_, ?_, ?_⟩
  · obtain ⟨cells', hw, _, hr⟩ :=
      tableWrite_tableRead cells address values maxCount h1 h2 h3 h4
    exact ⟨cells', hw, hr⟩
  · have hmb : maxBits = 2000 := rfl
    obtain ⟨cells', hw, _, hr⟩ := tableWrite_tableRead s.coils 1 [b] maxBits
      (by omega) (by simp; omega) (by simp) (by simp; omega)
    refine ⟨{ s with coils := cells' }, ?_, ?_⟩
    · unfold writeCoil
      rw [hw]
      rfl
    · unfold readCoil
      rw [show List.length [b] = 1 from rfl] at hr
      show (tableRead cells' 1 1 maxBits).map _ = _
      rw [hr]
      rfl
  · have hmr : maxRegs = 125 := rfl
    obtain ⟨cells', hw, _, hr⟩ := tableWrite_tableRead s.holdingRegisters 1
      [v % 65536] maxRegs (by omega) (by simp; omega) (by simp)
      (by simp; omega)
    refine ⟨{ s with holdingRegisters := cells' }, ?_, ?_⟩
    · unfold writeRegister
      rw [hw]
      rfl
    · unfold readRegister
      rw [show List.length [v % 65536] = 1 from rfl] at hr
      show (tableRead cells' 1 1 maxRegs).map _ = _
      rw [hr]
      show Except.ok ([v % 65536].getD 0 0) = _
      rw [List.getD_cons_zero, Nat.mod_eq_of_lt hv]

/-- Witness for C3: a three-cell register table written at address 2, a coil
written true, and holding register 1 written 3600. -/
theorem write_read_roundtrip_witness :
    ((1 : Nat) ≤ 2 ∧ 2 + [(7 : Nat)].length - 1 ≤ [(0 : Nat), 0, 0].length ∧
      1 ≤ [(7 : Nat)].length ∧ [(7 : Nat)].length ≤ 125 ∧ (3600 : Nat) < 65536) ∧
    (∃ cells', tableWrite [(0 : Nat), 0, 0] 2 [7] 125 = .ok cells' ∧
      tableRead cells' 2 [(7 : Nat)].length 125 = .ok [7]) ∧
    (∃ s', writeCoil ⟨[false], [], [], [0]⟩ 1 true = .ok s' ∧
      readCoil s' 1 = .ok true) ∧
    (∃ s', writeRegister ⟨[false], [], [], [0]⟩ 1 3600 = .ok s' ∧
      readRegister s' 1 = .ok 3600) :=
  ⟨by decide,
    write_read_roundtrip [(0 : Nat), 0, 0] 2 [7] 125
      ⟨[false], [], [], [0]⟩ true 3600 (by decide) (by decide) (by decide)
      (by decide) (by decide) (by decide) (by decide)⟩

/-- C4: `close()` is signal-handler safe in the sense of the spec: it only
sets the process-wide cancellation flag — the open state and the held
resource are untouched — and the actual resource release is performed by
the poll loop, whose top-of-iteration check acts on the flag. -/
theorem close_only_sets_flag (e : Engine) :
    (close e).closeRequested = true ∧
    (close e).resourceHeld = e.resourceHeld ∧
    (close e).opened = e.opened ∧
    (pollStep (close e)).resourceHeld = false := by
  refine ⟨rfl, rfl, rfl, ?_⟩
  simp [pollStep, close]

/-- C5: `close()` is idempotent — calling it twice equals calling it once —
it leaves `isOpen()` false, and the do/poll loop guarded by `isOpen()`
terminates on the iteration after the call. -/
theorem close_idempotent_loop_exits (e : Engine) (fuel : Nat) :
    close (close e) = close e ∧
    isOpen (close e) = false ∧
    serverLoop (fuel + 1) (close e) = pollStep (close e) := by
  refine ⟨rfl, ?_, ?_⟩
  · simp [isOpen, close]
  · simp [serverLoop, pollStep, close, isOpen]

/-- C6: a bad configuration prevents server startup with a diagnostic —
when `setConfig` throws, `open()` is never called, no listening endpoint is
created, and the catch block reports an error message naming the fault. -/
theorem bad_config_prevents_startup (argc : Nat) (k : ExcKind)
    (setupExc loopExc : Option ExcKind) (openOk : Bool) (h : 2 ≤ argc) :
    (mainModel argc (some k) setupExc loopExc openOk).openCalled = false ∧
    (mainModel argc (some k) setupExc loopExc openOk).endpointCreated =
      false ∧
    (mainModel argc (some k) setupExc loopExc openOk).stderrDiag =
      some (diagMessage k) := by
  unfold mainModel
  rw [if_neg (by omega)]
  exact ⟨rfl, rfl, rfl⟩

/-- Witness for C6: a json parse failure reported as a runtime error. -/
theorem bad_config_prevents_startup_witness :
    (2 ≤ 2) ∧
    ((mainModel 2 (some (ExcKind.runtimeError "failed to parse json")) none
        none true).openCalled = false ∧
     (mainModel 2 (some (ExcKind.runtimeError "failed to parse json")) none
        none true).endpointCreated = false ∧
     (mainModel 2 (some (ExcKind.runtimeError "failed to parse json")) none
        none true).stderrDiag =
       some (diagMessage (ExcKind.runtimeError "failed to parse json"))) :=
  ⟨by decide, bad_config_prevents_startup 2
    (ExcKind.runtimeError "failed to parse json") none none true
    (by decide)⟩

/-- C7: with `poll` bounded by its budget — spec-modelled as consecutive
whole-second clock samples differing by at most one, the 100 ms budget
being below one second — control returns to the refresh check on every
iteration; the refresh body fires exactly when the sampled second exceeds
the previously recorded one, and every wall-clock second value reached by
the sample trace triggers the refresh body exactly once. -/
theorem refresh_once_per_second (trace : Nat → Int)
    (mono : ∀ i, trace i ≤ trace (i + 1))
    (step : ∀ i, trace (i + 1) ≤ trace i + 1)
    (v : Int) (N : Nat) (h0 : trace 0 < v) (hN : v ≤ trace N) :
    (∀ i, refreshFires trace i ↔ trace i < trace (i + 1)) ∧
    (∃! i, i < N ∧ refreshFires trace i ∧ trace (i + 1) = v) := by
  have hmono : ∀ i j, i ≤ j → trace i ≤ trace j :=
    fun i j h => monotone_nat_of_le_succ mono h
  refine ⟨refreshFires_iff trace mono, ?_⟩
  obtain ⟨i, hiN, hlt, heq⟩ := trace_hits_value trace step v N h0 hN
  refine ⟨i, ⟨hiN, (refreshFires_iff trace mono i).mpr hlt, heq⟩, ?_⟩
  rintro j ⟨hjN, hjf, hjeq⟩
  rw [refreshFires_iff trace mono j] at hjf
  by_contra hne
  rcases lt_or_gt_of_ne hne with hlt2 | hlt2
  · have hle := hmono (j + 1) i (by omega)
    omega
  · have hle := hmono (i + 1) j (by omega)
    omega

/-- Witness for C7 on the trace that advances one second per iteration,
with the second value 3 reached within five iterations. -/
theorem refresh_once_per_second_witness :
    (∀ i : Nat, refreshFires (fun j => (j : Int)) i ↔
      ((i : Int) < ((i + 1 : Nat) : Int))) ∧
    (∃! i : Nat, i < 5 ∧ refreshFires (fun j => (j : Int)) i ∧
      (((i + 1 : Nat) : Int) = 3)) :=
  refresh_once_per_second (fun j => (j : Int))
    (fun i => Nat.cast_le.mpr (Nat.le_succ i))
    (fun i => le_of_eq (Nat.cast_succ i)) 3 5 (by norm_num) (by norm_num)

/-- C8: every refresh iteration reads the daylight flag and the GMT offset
back from coil 1 and holding register 1 of the slave in that same iteration
and publishes `gmtime(now + (daylight ? 3600 : 0) + gmtoff)`; the refresh
leaves coils and holding registers untouched, so a client write to them is
picked up by the next refresh, within the next second. -/
theorem refresh_uses_current_values (gmt : Int → Tm) (s : BufferedSlave)
    (now : Int) (d : Bool) (g : Int)
    (hc : readCoil s 1 = .ok d) (hg : readRegisterInt32 s 1 = .ok g)
    (h8 : s.inputRegisters.length = 8) :
    ∃ s', refresh gmt s now = .ok s' ∧
      readInputRegisters s' 1 8 =
        .ok (mbTimeOf (gmt (now + ((if d then 3600 else 0) + g)))) ∧
      s'.coils = s.coils ∧ s'.holdingRegisters = s.holdingRegisters := by
  obtain ⟨s', hw, hr, hcoils, hhold, _⟩ := writeInputRegisters_roundtrip s
    (mbTimeOf (gmt (now + ((if d then 3600 else 0) + g)))) h8 rfl
  refine ⟨s', ?_, hr, hcoils, hhold⟩
  unfold refresh
  rw [hc, hg]
  exact hw

/-- Witness for C8: daylight off, offset 3600 stored in registers 1-2, at
epoch time 0 with a fixed broken-down-time oracle. -/
theorem refresh_uses_current_values_witness :
    (readCoil ⟨[false], [], [0, 0, 0, 0, 0, 0, 0, 0], [0, 3600]⟩ 1 =
      .ok false) ∧
    (readRegisterInt32 ⟨[false], [], [0, 0, 0, 0, 0, 0, 0, 0], [0, 3600]⟩ 1 =
      .ok 3600) ∧
    ∃ s', refresh (fun _ => ⟨0, 0, 0, 1, 0, 70, 4, 0⟩)
        ⟨[false], [], [0, 0, 0, 0, 0, 0, 0, 0], [0, 3600]⟩ 0 = .ok s' ∧
      readInputRegisters s' 1 8 =
        .ok (mbTimeOf ((fun _ => (⟨0, 0, 0, 1, 0, 70, 4, 0⟩ : Tm))
          ((0 : Int) + ((if false then 3600 else 0) + 3600)))) ∧
      s'.coils = [false] ∧ s'.holdingRegisters = [0, 3600] :=
  ⟨rfl, rfl, refresh_uses_current_values
    (fun _ => ⟨0, 0, 0, 1, 0, 70, 4, 0⟩)
    ⟨[false], [], [0, 0, 0, 0, 0, 0, 0, 0], [0, 3600]⟩ 0 false 3600
    rfl rfl rfl⟩

/-- C9: every exception thrown inside the server setup or the serving loop
is caught by `main`, a diagnostic for exactly the thrown exception is
written to stderr, and `main` returns 0, so the process exit code is 0 even
when the server failed to start or aborted on error. -/
theorem exceptions_caught_exit_zero (argc : Nat)
    (setConfigExc setupExc loopExc : Option ExcKind) (openOk : Bool)
    (h : 2 ≤ argc) :
    (mainModel argc setConfigExc setupExc loopExc openOk).exitCode = 0 ∧
    (mainModel argc setConfigExc setupExc loopExc openOk).stderrDiag =
      (thrownExc setConfigExc setupExc loopExc openOk).map diagMessage := by
  unfold mainModel thrownExc
  rw [if_neg (by omega)]
  rcases setConfigExc with _ | k
  · rcases setupExc with _ | k
    · rcases openOk with _ | _
      · exact ⟨rfl, rfl⟩
      · rcases loopExc with _ | k
        · exact ⟨rfl, rfl⟩
        · exact ⟨rfl, rfl⟩
    · exact ⟨rfl, rfl⟩
  · exact ⟨rfl, rfl⟩

/-- Witness for C9: a runtime error escaping the serving loop. -/
theorem exceptions_caught_exit_zero_witness :
    (2 ≤ 2) ∧
    ((mainModel 2 none none (some ExcKind.other) true).exitCode = 0 ∧
     (mainModel 2 none none (some ExcKind.other) true).stderrDiag =
       (thrownExc none none (some ExcKind.other) true).map diagMessage) :=
  ⟨by decide, exceptions_caught_exit_zero 2 none none (some ExcKind.other)
    true (by decide)⟩

/-- C10: invoked with fewer than two command-line arguments, the program
writes the usage error to stderr and exits with `EXIT_FAILURE` (1) before
reading any configuration, registering any slave, or opening the server. -/
theorem missing_argument_usage_failure (argc : Nat)
    (setConfigExc setupExc loopExc : Option ExcKind) (openOk : Bool)
    (h : argc < 2) :
    mainModel argc setConfigExc setupExc loopExc openOk =
      { exitCode := 1, usageErrorReported := true, configRead := false,
        slaveRegistered := false, openCalled := false,
        endpointCreated := false, stderrDiag := none } := by
  unfold mainModel
  rw [if_pos h]

/-- Witness for C10 at `argc = 1`, a run with no json filename argument. -/
theorem missing_argument_usage_failure_witness :
    (1 < 2) ∧
    mainModel 1 none none none true =
      { exitCode := 1, usageErrorReported := true, configRead := false,
        slaveRegistered := false, openCalled := false,
        endpointCreated := false, stderrDiag := none } :=
  ⟨by decide, missing_argument_usage_failure 1 none none none true
    (by decide)⟩

end Modbuspp
